import Mathlib

/-!
Shallow embedding of `gl3w_gen.py` (gl3w-mx generator) and of the C runtime
code it emits.

Part 1, the declaration extractor (`gl3w_gen.py`, lines 112-126):
the script scans `glcorearb.h` line by line with the Python regex
`GLAPI.*APIENTRY\s+(\w+)` via `re.match` (anchored at the start of the
line), appends every captured group-1 identifier to `procs`, and finally
calls `procs.sort()`.

Regex semantics modelled here, for this fixed pattern:
`GLAPI` is a literal prefix; `.*` greedily matches any run of
non-newline characters with backtracking; `APIENTRY` is a literal;
`\s+` greedily matches one or more whitespace characters; `(\w+)`
captures a maximal nonempty run of word characters.  The input is ASCII
(a C header), so `\w` is `[A-Za-z0-9_]` and `\s` is `[ \t\n\r\x0b\x0c]`.
-/

namespace Gl3wGen

/-- Python `\w` on ASCII input: letters, digits, underscore. -/
def isWordChar (c : Char) : Bool :=
  ('a' ≤ c && c ≤ 'z') || ('A' ≤ c && c ≤ 'Z') || ('0' ≤ c && c ≤ '9') || c = '_'

/-- Python `\s` on ASCII input. -/
def isSpaceChar (c : Char) : Bool :=
  c = ' ' || c = '\t' || c = '\n' || c = '\r' || c = '\x0b' || c = '\x0c'

/-- Match the pattern tail `APIENTRY\s+(\w+)` at the head of `l`, returning
the captured group.  `\s+` is greedy; backtracking it cannot help, because a
whitespace character is never a word character, so the tail matches exactly
when a nonempty whitespace run is followed by a word character, and the
capture is the maximal word run after the maximal whitespace run. -/
def tryTail (l : List Char) : Option (List Char) :=
  if l.take 8 = "APIENTRY".data then
    let r := l.drop 8
    let ws := r.takeWhile isSpaceChar
    if ws.isEmpty then none
    else
      let w := (r.drop ws.length).takeWhile isWordChar
      if w.isEmpty then none else some w
  else none

/-- Greedy `.*` with backtracking: try the tail pattern at offset `i`,
then at `i - 1`, and so on down to `0`; the first success (largest
offset) wins, as in Python's leftmost-greedy matching. -/
def searchDot (l : List Char) : Nat → Option (List Char)
  | 0 => tryTail l
  | i + 1 =>
    match tryTail (l.drop (i + 1)) with
    | some w => some w
    | none => searchDot l i

/-- `re.compile(r'GLAPI.*APIENTRY\s+(\w+)').match(line)`, returning
group 1.  `.*` cannot cross a newline, so the search offset is bounded by
the first newline after the literal `GLAPI` prefix. -/
def reMatch (line : String) : Option String :=
  let l := line.data
  if l.take 5 = "GLAPI".data then
    let rest := l.drop 5
    let bound := (rest.takeWhile (fun c => c ≠ '\n')).length
    (searchDot rest bound).map String.mk
  else none

/-- The extraction loop: `for line in f: m = p.match(line); if m:
procs.append(m.group(1))`.  One appended name per matching line, in file
order; non-matching lines are skipped silently. -/
def extract (lines : List String) : List String :=
  lines.filterMap reMatch

/-- Python `list.sort()` on strings: stable sort, ascending by the
code-point lexicographic order (byte order on ASCII). -/
def pySort (l : List String) : List String :=
  l.mergeSort

/-- The final `procs` list: extracted names, then `procs.sort()`. -/
def procsOf (lines : List String) : List String :=
  pySort (extract lines)

/-- Python `proc[2:]`: drop the first two characters. -/
def pyDrop2 (s : String) : String :=
  String.mk (s.data.drop 2)

/-- Python `proc.upper()` on ASCII identifiers: uppercase each
character. -/
def pyUpper (s : String) : String :=
  String.mk (s.data.map Char.toUpper)

/-- `proc_t`'s field `p_s`: `'gl3w' + proc[2:]`. -/
def p_s (proc : String) : String :=
  "gl3w" ++ pyDrop2 proc

/-- `proc_t`'s field `p_t`: `'PFN' + proc.upper() + 'PROC'`. -/
def p_t (proc : String) : String :=
  "PFN" ++ pyUpper proc ++ "PROC"

/-!
Part 2, the emitter (`gl3w_gen.py`, lines 128-313).  The two output files
are byte streams; each is the concatenation of fixed template chunks and
one generated line per element of `procs`, in list order.  Literal braces
of the C text are written `\x7b` and `\x7d` below.
-/

/-- Python `'\x7b0: <N\x7d'.format(s)`: left-justify in a field of `N`
spaces (no-op when `s` is already at least `N` long). -/
def padRight (s : String) (w : Nat) : String :=
  s ++ String.mk (List.replicate (w - s.length) ' ')

/-- The `UNLICENSE` block written verbatim at the top of both artifacts. -/
def UNLICENSE : String := String.join [
  "/*\n",
  "\n",
  "    This file was generated with gl3w_gen.py, part of gl3w\n",
  "    (hosted at https://github.com/skaslev/gl3w)\n",
  "\n",
  "    This is free and unencumbered software released into the public domain.\n",
  "\n",
  "    Anyone is free to copy, modify, publish, use, compile, sell, or\n",
  "    distribute this software, either in source code form or as a compiled\n",
  "    binary, for any purpose, commercial or non-commercial, and by any\n",
  "    means.\n",
  "\n",
  "    In jurisdictions that recognize copyright laws, the author or authors\n",
  "    of this software dedicate any and all copyright interest in the\n",
  "    software to the public domain. We make this dedication for the benefit\n",
  "    of the public at large and to the detriment of our heirs and\n",
  "    successors. We intend this dedication to be an overt act of\n",
  "    relinquishment in perpetuity of all present and future rights to this\n",
  "    software under copyright law.\n",
  "\n",
  "    THE SOFTWARE IS PROVIDED \"AS IS\", WITHOUT WARRANTY OF ANY KIND,\n",
  "    EXPRESS OR IMPLIED, INCLUDING BUT NOT LIMITED TO THE WARRANTIES OF\n",
  "    MERCHANTABILITY, FITNESS FOR A PARTICULAR PURPOSE AND NONINFRINGEMENT.\n",
  "    IN NO EVENT SHALL THE AUTHORS BE LIABLE FOR ANY CLAIM, DAMAGES OR\n",
  "    OTHER LIABILITY, WHETHER IN AN ACTION OF CONTRACT, TORT OR OTHERWISE,\n",
  "    ARISING FROM, OUT OF OR IN CONNECTION WITH THE SOFTWARE OR THE USE OR\n",
  "    OTHER DEALINGS IN THE SOFTWARE.\n",
  "\n",
  "*/\n",
  "\n"]

/-- Fixed text of `gl3w.h` before the per-declaration struct fields. -/
def gl3wHHead : String := String.join [
  "#ifndef __gl3w_h_\n",
  "#define __gl3w_h_\n",
  "\n",
  "#include <GL/glcorearb.h>\n",
  "\n",
  "#ifndef __gl_h_\n",
  "#define __gl_h_\n",
  "#endif\n",
  "\n",
  "#include <string.h>\n",
  "\n",
  "#ifdef __cplusplus\n",
  "extern \"C\" \x7b\n",
  "#endif\n",
  "\n",
  "typedef struct _GL3WContext \x7b\n",
  "    int major;\n",
  "    int minor;\n"]

/-- One struct field line: `'    \x7b0[p_t]: <52\x7d \x7b0[p_s]\x7d;\n'`. -/
def structFieldLine (proc : String) : String :=
  "    " ++ padRight (p_t proc) 52 ++ " " ++ p_s proc ++ ";\n"

/-- Fixed text of `gl3w.h` between the struct fields and the macros. -/
def gl3wHMid : String :=
  "\n\x7d GL3WContext;\n\n"

/-- One `#define` line:
`'#define \x7b0[p]: <45\x7d ((GL3W_CONTEXT_METHOD)->\x7b0[p_s]\x7d)\n'`. -/
def defineLine (proc : String) : String :=
  "#define " ++ padRight proc 45 ++ " ((GL3W_CONTEXT_METHOD)->" ++ p_s proc ++ ")\n"

/-- Fixed text of `gl3w.h` after the `#define` lines. -/
def gl3wHTail : String := String.join [
  "\n",
  "\n",
  "typedef void (*GL3WglProc)(void);\n",
  "\n",
  "/* gl3w api */\n",
  "int gl3wInit(GL3WContext *context);\n",
  "void gl3wShutdown(GL3WContext *context);\n",
  "int gl3wIsSupported(const GL3WContext *context, int major, int minor);\n",
  "GL3WglProc gl3wGetProcAddress(const char *proc);\n",
  "\n",
  "#ifdef __cplusplus\n",
  "\x7d\n",
  "#endif\n",
  "\n",
  "#endif\n"]

/-- The whole of `gl3w.h` as a function of the (already sorted) `procs`
list: license, fixed head, one field per proc, fixed middle, one macro
per proc, fixed tail. -/
def gl3w_h (procs : List String) : String :=
  UNLICENSE ++ gl3wHHead ++ String.join (procs.map structFieldLine) ++
    gl3wHMid ++ String.join (procs.map defineLine) ++ gl3wHTail

/-- Fixed text of `gl3w.c`: the three mutually exclusive platform blocks
(`_WIN32` / Apple / generic POSIX), each defining `libgl_open`,
`libgl_close` and `libgl_sym`. -/
def gl3wCHead : String := String.join [
  "#include <GL/gl3w.h>\n",
  "\n",
  "#ifdef _WIN32\n",
  "\n",
  "#define WIN32_LEAN_AND_MEAN 1\n",
  "#include <windows.h>\n",
  "\n",
  "static HMODULE libgl;\n",
  "\n",
  "static void libgl_open(void) \x7b\n",
  "    libgl = LoadLibraryA(\"opengl32.dll\");\n",
  "\x7d\n",
  "\n",
  "static void libgl_close(void) \x7b\n",
  "    FreeLibrary(libgl);\n",
  "\x7d\n",
  "\n",
  "static GL3WglProc libgl_sym(const char *proc) \x7b\n",
  "    GL3WglProc res;\n",
  "\n",
  "    res = (GL3WglProc)wglGetProcAddress(proc);\n",
  "    if (!res)\n",
  "        res = (GL3WglProc)GetProcAddress(libgl, proc);\n",
  "    return res;\n",
  "\x7d\n",
  "\n",
  "#elif defined(__APPLE__) || defined(__APPLE_CC__)\n",
  "\n",
  "#include <Carbon/Carbon.h>\n",
  "\n",
  "static CFBundleRef bundle;\n",
  "static CFURLRef bundleURL;\n",
  "\n",
  "static void libgl_open(void) \x7b\n",
  "    bundleURL = CFURLCreateWithFileSystemPath(kCFAllocatorDefault,\n",
  "        CFSTR(\"/System/Library/Frameworks/OpenGL.framework\"),\n",
  "        kCFURLPOSIXPathStyle, true);\n",
  "\n",
  "    bundle = CFBundleCreate(kCFAllocatorDefault, bundleURL);\n",
  "    assert(bundle != NULL);\n",
  "\x7d\n",
  "\n",
  "static void libgl_close(void) \x7b\n",
  "    CFRelease(bundle);\n",
  "    CFRelease(bundleURL);\n",
  "\x7d\n",
  "\n",
  "static GL3WglProc libgl_sym(const char *proc) \x7b\n",
  "    GL3WglProc res;\n",
  "\n",
  "    CFStringRef procName = CFStringCreateWithCString(kCFAllocatorDefault, proc,\n",
  "        kCFStringEncodingASCII);\n",
  "    res = (GL3WglProc)CFBundleGetFunctionPointerForName(bundle, procName);\n",
  "    CFRelease(procName);\n",
  "    return res;\n",
  "\x7d\n",
  "\n",
  "#else\n",
  "\n",
  "#include <dlfcn.h>\n",
  "#include <GL/glx.h>\n",
  "\n",
  "static void *libgl;\n",
  "\n",
  "static void libgl_open(void) \x7b\n",
  "    libgl = dlopen(\"libGL.so.1\", RTLD_LAZY | RTLD_GLOBAL);\n",
  "\x7d\n",
  "\n",
  "static void libgl_close(void) \x7b\n",
  "    dlclose(libgl);\n",
  "\x7d\n",
  "\n",
  "static GL3WglProc libgl_sym(const char *proc) \x7b\n",
  "    GL3WglProc res;\n",
  "\n",
  "    res = (GL3WglProc)glXGetProcAddress((const GLubyte *)proc);\n",
  "    if (!res)\n",
  "        res = (GL3WglProc)dlsym(libgl, proc);\n",
  "    return res;\n",
  "\x7d\n",
  "\n",
  "#endif\n",
  "\n"]

/-- Fixed text opening the emitted `setup_context`. -/
def setupHead : String :=
  "\nstatic int setup_context(GL3WContext *p) \x7b\n"

/-- One resolution line:
`'    p->\x7b0[p_s]\x7d = (\x7b0[p_t]\x7d)libgl_sym(\"\x7b0[p]\x7d\");\n'`. -/
def setupLine (proc : String) : String :=
  "    p->" ++ p_s proc ++ " = (" ++ p_t proc ++ ")libgl_sym(\"" ++ proc ++ "\");\n"

/-- Fixed text of `gl3w.c` after the per-declaration resolution lines:
the version check of `setup_context` plus `gl3wInit`, `gl3wShutdown`,
`gl3wIsSupported` and `gl3wGetProcAddress`. -/
def gl3wCTail : String := String.join [
  "\n",
  "\n",
  "    if (!p->gl3wGetIntegerv)\n",
  "        return 0;\n",
  "\n",
  "    p->gl3wGetIntegerv(GL_MAJOR_VERSION, &p->major);\n",
  "    p->gl3wGetIntegerv(GL_MINOR_VERSION, &p->minor);\n",
  "\n",
  "    if (p->major < 3)\n",
  "        return 0;\n",
  "\n",
  "    return 1;\n",
  "\x7d\n",
  "\n",
  "int gl3wInit(GL3WContext *context) \x7b\n",
  "    int res;\n",
  "    libgl_open();\n",
  "    memset(context, 0, sizeof(*context));\n",
  "    res = setup_context(context);\n",
  "    return res;\n",
  "\x7d\n",
  "\n",
  "void gl3wShutdown(GL3WContext *context) \x7b\n",
  "    libgl_close();\n",
  "    memset(context, 0, sizeof(*context));\n",
  "\x7d\n",
  "\n",
  "int gl3wIsSupported(const GL3WContext *context, int major, int minor) \x7b\n",
  "    if (context->major < 3)\n",
  "        return 0;\n",
  "\n",
  "    if (context->major == major)\n",
  "        return context->minor >= minor;\n",
  "    else\n",
  "        return context->major >= major;\n",
  "\x7d\n",
  "\n",
  "GL3WglProc gl3wGetProcAddress(const char *proc) \x7b\n",
  "    return libgl_sym(proc);\n",
  "\x7d\n"]

/-- The whole of `gl3w.c` as a function of the (already sorted) `procs`
list. -/
def gl3w_c (procs : List String) : String :=
  UNLICENSE ++ gl3wCHead ++ setupHead ++ String.join (procs.map setupLine) ++
    gl3wCTail

/-- One full run of the generator on the lines of `glcorearb.h`:
extraction and sorting followed by emission of both artifacts. -/
def fullGen (lines : List String) : String × String :=
  (gl3w_h (procsOf lines), gl3w_c (procsOf lines))

/-!
Part 3, a model of the emitted C runtime (`gl3w.c` as generated above,
template text at `gl3w_gen.py` lines 266-313).  The `GL3WContext` struct
has `int major`, `int minor` and one function-pointer field per
declaration; pointer fields are modelled as a total map from declaration
name to a machine address (`0` is `NULL`).  `libgl_sym` and the values
the resolved `glGetIntegerv` stores for `GL_MAJOR_VERSION` /
`GL_MINOR_VERSION` are the opaque environment.  Calls to the
platform-library primitives and the memory operations are also recorded
as an event trace, so that statements about operation order (open before
anything else, close only in shutdown) can be made.
-/

/-- The emitted `GL3WContext` struct: version fields plus one pointer
field per declaration name (`0` = `NULL`). -/
structure GL3WContext where
  major : Int
  minor : Int
  ptrs : String → Nat

/-- The opaque symbol-resolution environment: what `libgl_sym` returns
for each name, and what the resolved `glGetIntegerv` writes for
`GL_MAJOR_VERSION` and `GL_MINOR_VERSION`. -/
structure GLEnv where
  sym : String → Nat
  getMajor : Int
  getMinor : Int

/-- Events performed by the emitted runtime, in program order. -/
inductive Step where
  | libOpen
  | libClose
  | zeroRecord
  | resolve (name : String)
  | queryVersion
deriving DecidableEq, Repr

/-- Return value, final record and event trace of a runtime call. -/
structure RunResult where
  ret : Int
  ctx : GL3WContext
  trace : List Step

/-- `memset(context, 0, sizeof(*context))`: every field becomes zero. -/
def zeroContext : GL3WContext :=
  { major := 0, minor := 0, ptrs := fun _ => 0 }

/-- The emitted `setup_context`: assign `p->field = libgl_sym(name)` for
every declaration in `procs` (in list order), then return 0 if the
`gl3wGetIntegerv` field is `NULL`; otherwise store the two queried
version values and return 1 exactly when the stored major is at least
3. -/
def setup_context (procs : List String) (env : GLEnv) (p0 : GL3WContext) : RunResult :=
  let p1 : GL3WContext :=
    { p0 with ptrs := fun n => if n ∈ procs then env.sym n else p0.ptrs n }
  let tr := procs.map Step.resolve
  if p1.ptrs "glGetIntegerv" = 0 then
    ⟨0, p1, tr⟩
  else
    let p2 : GL3WContext := { p1 with major := env.getMajor, minor := env.getMinor }
    let tr2 := tr ++ [Step.queryVersion, Step.queryVersion]
    if p2.major < 3 then ⟨0, p2, tr2⟩ else ⟨1, p2, tr2⟩

/-- The emitted `gl3wInit`: `libgl_open()`, then
`memset(context, 0, sizeof(*context))` (so the incoming record state is
discarded entirely), then `setup_context(context)`, whose result is
returned.  Total: no exceptional exit exists in the model, as none
exists in the C. -/
def gl3wInit (procs : List String) (env : GLEnv) (context : GL3WContext) : RunResult :=
  let r := setup_context procs env zeroContext
  ⟨r.ret, r.ctx, Step.libOpen :: Step.zeroRecord :: r.trace⟩

/-- The emitted `gl3wShutdown`: `libgl_close()`, then zero the record. -/
def gl3wShutdown (context : GL3WContext) : GL3WContext × List Step :=
  (zeroContext, [Step.libClose, Step.zeroRecord])

/-- The emitted `gl3wIsSupported`: pure comparison against the record's
version fields; C relational results are 0/1 ints. -/
def gl3wIsSupported (context : GL3WContext) (major minor : Int) : Int :=
  if context.major < 3 then 0
  else if context.major = major then
    (if context.minor ≥ minor then 1 else 0)
  else
    (if context.major ≥ major then 1 else 0)

/-- The emitted `gl3wGetProcAddress`: direct passthrough to
`libgl_sym`, independent of any context record. -/
def gl3wGetProcAddress (env : GLEnv) (proc : String) : Nat :=
  env.sym proc

/-- The support predicate in the spec's words: false when resolved major
is below 3; else true when the resolved major equals the requested major
and the resolved minor is at least the requested minor; else true when
the resolved major is strictly greater than the requested major; else
false. -/
def isSupportedSpec (context : GL3WContext) (major minor : Int) : Int :=
  if context.major < 3 then 0
  else if context.major = major ∧ minor ≤ context.minor then 1
  else if major < context.major then 1
  else 0

end Gl3wGen

namespace Gl3wGen

/-- The return value of the modelled `setup_context`, as one expression. -/
lemma setup_context_ret (procs : List String) (env : GLEnv) (p0 : GL3WContext) :
    (setup_context procs env p0).ret =
      if (if "glGetIntegerv" ∈ procs then env.sym "glGetIntegerv" else p0.ptrs "glGetIntegerv") = 0
      then 0
      else if env.getMajor < 3 then 0 else 1 := by
  simp only [setup_context]
  split <;> (try split) <;> (try split) <;> rfl

/-- After `setup_context`, every declared pointer field holds its `libgl_sym`
result and every other field is untouched. -/
lemma setup_context_ptrs (procs : List String) (env : GLEnv) (p0 : GL3WContext) :
    (setup_context procs env p0).ctx.ptrs
      = fun n => if n ∈ procs then env.sym n else p0.ptrs n := by
  simp only [setup_context]
  split <;> (try split) <;> (try split) <;> rfl

/-- The `major` field after `setup_context`: written only when the
`gl3wGetIntegerv` field resolved non-null. -/
lemma setup_context_major (procs : List String) (env : GLEnv) (p0 : GL3WContext) :
    (setup_context procs env p0).ctx.major =
      if (if "glGetIntegerv" ∈ procs then env.sym "glGetIntegerv" else p0.ptrs "glGetIntegerv") = 0
      then p0.major else env.getMajor := by
  simp only [setup_context]
  split <;> (try split) <;> (try split) <;> rfl

/-- The `minor` field after `setup_context`: written only when the
`gl3wGetIntegerv` field resolved non-null. -/
lemma setup_context_minor (procs : List String) (env : GLEnv) (p0 : GL3WContext) :
    (setup_context procs env p0).ctx.minor =
      if (if "glGetIntegerv" ∈ procs then env.sym "glGetIntegerv" else p0.ptrs "glGetIntegerv") = 0
      then p0.minor else env.getMinor := by
  simp only [setup_context]
  split <;> (try split) <;> (try split) <;> rfl

/-- The `setup_context` trace is the resolution steps, possibly followed by
the two version queries; it never contains a library event. -/
lemma setup_context_trace (procs : List String) (env : GLEnv) (p0 : GL3WContext) :
    (setup_context procs env p0).trace = procs.map Step.resolve ∨
    (setup_context procs env p0).trace
      = procs.map Step.resolve ++ [Step.queryVersion, Step.queryVersion] := by
  simp only [setup_context]
  split <;> (try split) <;> (try split) <;>
    first | exact Or.inl rfl | exact Or.inr rfl

/-- The return value of the modelled `gl3wInit`, as one expression (the
record is zeroed first, so unresolved lookups read 0). -/
lemma gl3wInit_ret (procs : List String) (env : GLEnv) (ctx : GL3WContext) :
    (gl3wInit procs env ctx).ret =
      if (if "glGetIntegerv" ∈ procs then env.sym "glGetIntegerv" else 0) = 0
      then 0
      else if env.getMajor < 3 then 0 else 1 := by
  have h := setup_context_ret procs env zeroContext
  simpa [gl3wInit, zeroContext] using h

/-- `gl3wInit` produces the record `setup_context` builds from a zeroed
record; the incoming record state is irrelevant. -/
lemma gl3wInit_ctx (procs : List String) (env : GLEnv) (ctx : GL3WContext) :
    (gl3wInit procs env ctx).ctx = (setup_context procs env zeroContext).ctx := rfl

/-- The `gl3wInit` trace: library open, record zeroing, then the
`setup_context` steps. -/
lemma gl3wInit_trace (procs : List String) (env : GLEnv) (ctx : GL3WContext) :
    (gl3wInit procs env ctx).trace
      = Step.libOpen :: Step.zeroRecord :: (setup_context procs env zeroContext).trace := rfl

/-- C1, counterexample: the extractor does not deduplicate.  Feeding the
same matching line `GLAPI void APIENTRY glClear (GLbitfield mask);` twice
yields the name `glClear` twice, so the output is not duplicate-free as
the claim states. -/
theorem C1_duplicate_lines_counterexample :
    ¬ (procsOf ["GLAPI void APIENTRY glClear (GLbitfield mask);",
        "GLAPI void APIENTRY glClear (GLbitfield mask);"]).Nodup := by
  intro h
  have hperm := List.mergeSort_perm
    (extract ["GLAPI void APIENTRY glClear (GLbitfield mask);",
      "GLAPI void APIENTRY glClear (GLbitfield mask);"]) (fun a b => a ≤ b)
  rw [show extract ["GLAPI void APIENTRY glClear (GLbitfield mask);",
      "GLAPI void APIENTRY glClear (GLbitfield mask);"] = ["glClear", "glClear"] from rfl] at hperm
  have := hperm.nodup_iff.mp h
  simp at this

/-- C1, amended: for every input text stream the extractor's output is
sorted ascending by ordinary lexical ordering and is a permutation of the
matched names (one entry per matching line); names are therefore unique
only when the matching lines carry distinct identifiers. -/
theorem C1_sorted_with_multiplicity (lines : List String) :
    List.Sorted (· ≤ ·) (procsOf lines) ∧ (procsOf lines).Perm (extract lines) :=
  ⟨List.sorted_mergeSort' _, List.mergeSort_perm _ _⟩

/-- C2: for every context record and requested `(major, minor)` pair,
`gl3wIsSupported` returns false if the resolved major is below 3, else
true if the resolved major equals the requested major and the resolved
minor is at least the requested minor, true if the resolved major is
strictly greater than the requested major, and false otherwise
(`isSupportedSpec` is that case analysis verbatim). -/
theorem C2_isSupported_matches_spec (context : GL3WContext) (major minor : Int) :
    gl3wIsSupported context major minor = isSupportedSpec context major minor := by
  unfold gl3wIsSupported isSupportedSpec
  split_ifs <;> omega

/-- C3: whenever `libgl_sym` resolves `glGetIntegerv` to null, `gl3wInit`
returns 0, with no requirement on any other pointer (the symbol table is
universally quantified); and the return value depends only on the
`glGetIntegerv` resolution and the detected major version, so the
version-query pointer is the only field whose resolution is checked
before version detection. -/
theorem C3_version_query_gates_init (procs : List String) (env env' : GLEnv)
    (ctx ctx' : GL3WContext)
    (hsym : env.sym "glGetIntegerv" = env'.sym "glGetIntegerv")
    (hmaj : env.getMajor = env'.getMajor) :
    (env.sym "glGetIntegerv" = 0 → (gl3wInit procs env ctx).ret = 0) ∧
    (gl3wInit procs env ctx).ret = (gl3wInit procs env' ctx').ret := by
  constructor
  · intro h0
    rw [gl3wInit_ret]
    have hc : (if "glGetIntegerv" ∈ procs then env.sym "glGetIntegerv" else 0) = 0 := by
      split <;> simp [h0]
    rw [if_pos hc]
  · rw [gl3wInit_ret, gl3wInit_ret, hsym, hmaj]

/-- Witness for C3 at a concrete environment pair differing in every
symbol except `glGetIntegerv`. -/
theorem C3_version_query_gates_init_witness :
    ((⟨fun _ => 0, 3, 1⟩ : GLEnv).sym "glGetIntegerv" = 0 →
      (gl3wInit ["glGetIntegerv"] ⟨fun _ => 0, 3, 1⟩ zeroContext).ret = 0) ∧
    (gl3wInit ["glGetIntegerv"] ⟨fun _ => 0, 3, 1⟩ zeroContext).ret
      = (gl3wInit ["glGetIntegerv"]
          ⟨fun n => if n = "glGetIntegerv" then 0 else 7, 3, 9⟩ zeroContext).ret :=
  C3_version_query_gates_init ["glGetIntegerv"] ⟨fun _ => 0, 3, 1⟩
    ⟨fun n => if n = "glGetIntegerv" then 0 else 7, 3, 9⟩ zeroContext zeroContext
    (by simp) rfl

/-- C4: `gl3wInit` opens the platform library first, zeroes the whole
record (fields outside the declaration list read 0), resolves every
declaration's pointer by name, returns only 0 or 1, and returns 1 exactly
when `glGetIntegerv` resolved non-null and the detected major version is
at least 3. -/
theorem C4_init_characterization (procs : List String) (env : GLEnv) (ctx : GL3WContext)
    (hmem : "glGetIntegerv" ∈ procs) :
    ((gl3wInit procs env ctx).ret = 1 ↔
      env.sym "glGetIntegerv" ≠ 0 ∧ 3 ≤ env.getMajor) ∧
    ((gl3wInit procs env ctx).ret = 0 ∨ (gl3wInit procs env ctx).ret = 1) ∧
    (∀ n, n ∈ procs → (gl3wInit procs env ctx).ctx.ptrs n = env.sym n) ∧
    (∀ n, n ∉ procs → (gl3wInit procs env ctx).ctx.ptrs n = 0) ∧
    (gl3wInit procs env ctx).trace.head? = some Step.libOpen ∧
    (∀ n, n ∈ procs → Step.resolve n ∈ (gl3wInit procs env ctx).trace) := by
  refine ⟨?_, ?_, ?_, ?_, rfl, ?_⟩
  · rw [gl3wInit_ret, if_pos hmem]
    split_ifs with h1 h2 <;> simp [h1] <;> omega
  · rw [gl3wInit_ret]
    split_ifs <;> simp
  · intro n hn
    rw [gl3wInit_ctx, setup_context_ptrs]
    simp [hn]
  · intro n hn
    rw [gl3wInit_ctx, setup_context_ptrs]
    simp [hn, zeroContext]
  · intro n hn
    rw [gl3wInit_trace]
    rcases setup_context_trace procs env zeroContext with h | h <;> rw [h] <;>
      simp [hn]

/-- Witness for C4 on a concrete two-declaration list with every symbol
resolving to address 1 and detected version 4.2. -/
theorem C4_init_characterization_witness :
    (((gl3wInit ["glClear", "glGetIntegerv"] ⟨fun _ => 1, 4, 2⟩ zeroContext).ret = 1 ↔
      (⟨fun _ => 1, 4, 2⟩ : GLEnv).sym "glGetIntegerv" ≠ 0 ∧
        3 ≤ (⟨fun _ => 1, 4, 2⟩ : GLEnv).getMajor) ∧
    ((gl3wInit ["glClear", "glGetIntegerv"] ⟨fun _ => 1, 4, 2⟩ zeroContext).ret = 0 ∨
      (gl3wInit ["glClear", "glGetIntegerv"] ⟨fun _ => 1, 4, 2⟩ zeroContext).ret = 1) ∧
    (∀ n, n ∈ ["glClear", "glGetIntegerv"] →
      (gl3wInit ["glClear", "glGetIntegerv"] ⟨fun _ => 1, 4, 2⟩ zeroContext).ctx.ptrs n
        = (⟨fun _ => 1, 4, 2⟩ : GLEnv).sym n) ∧
    (∀ n, n ∉ ["glClear", "glGetIntegerv"] →
      (gl3wInit ["glClear", "glGetIntegerv"] ⟨fun _ => 1, 4, 2⟩ zeroContext).ctx.ptrs n = 0) ∧
    (gl3wInit ["glClear", "glGetIntegerv"] ⟨fun _ => 1, 4, 2⟩ zeroContext).trace.head?
      = some Step.libOpen ∧
    (∀ n, n ∈ ["glClear", "glGetIntegerv"] →
      Step.resolve n ∈ (gl3wInit ["glClear", "glGetIntegerv"] ⟨fun _ => 1, 4, 2⟩ zeroContext).trace)) :=
  C4_init_characterization ["glClear", "glGetIntegerv"] ⟨fun _ => 1, 4, 2⟩ zeroContext (by simp)

/-- C5: running `gl3wShutdown` on a record and then `gl3wInit` on that
same record gives exactly the run of a first-time `gl3wInit` on a fresh
(zeroed) record, in the same symbol-resolution environment: the `memset`
in `gl3wInit` discards all prior record state. -/
theorem C5_shutdown_then_init_is_fresh_init (procs : List String) (env : GLEnv)
    (ctx : GL3WContext) :
    gl3wInit procs env (gl3wShutdown ctx).1 = gl3wInit procs env zeroContext := rfl

/-- C6: extraction plus emission is deterministic; two runs on equal
input line streams produce byte-identical header and source artifacts,
because the emitted content is a pure function of the input. -/
theorem C6_emission_deterministic (lines1 lines2 : List String) (h : lines1 = lines2) :
    fullGen lines1 = fullGen lines2 := by rw [h]

/-- Witness for C6 at a concrete one-line input. -/
theorem C6_emission_deterministic_witness :
    ["GLAPI void APIENTRY glClear (GLbitfield mask);"]
      = ["GLAPI void APIENTRY glClear (GLbitfield mask);"] ∧
    fullGen ["GLAPI void APIENTRY glClear (GLbitfield mask);"]
      = fullGen ["GLAPI void APIENTRY glClear (GLbitfield mask);"] :=
  ⟨rfl, C6_emission_deterministic _ _ rfl⟩

set_option maxRecDepth 2048 in
/-- C7: the input line `GLAPI void APIENTRY glClear (GLbitfield mask);`
extracts to exactly one declaration `glClear`; its context-record field is
named `gl3wClear` (the first two characters replaced by the `gl3w`
loader prefix) and its emitted macro expands to
`((GL3W_CONTEXT_METHOD)->gl3wClear)`, a dereference of the currently
active context followed by access of that field; the emitted header is
the fixed text around exactly those two generated lines. -/
theorem C7_glClear_scenario :
    extract ["GLAPI void APIENTRY glClear (GLbitfield mask);"] = ["glClear"] ∧
    procsOf ["GLAPI void APIENTRY glClear (GLbitfield mask);"] = ["glClear"] ∧
    p_s "glClear" = "gl3w" ++ "glClear".drop 2 ∧
    p_s "glClear" = "gl3wClear" ∧
    structFieldLine "glClear"
      = "    PFNGLCLEARPROC                                       gl3wClear;\n" ∧
    defineLine "glClear"
      = "#define glClear                                       ((GL3W_CONTEXT_METHOD)->gl3wClear)\n" ∧
    gl3w_h ["glClear"]
      = UNLICENSE ++ gl3wHHead ++ structFieldLine "glClear" ++ gl3wHMid ++
          defineLine "glClear" ++ gl3wHTail := by
  refine ⟨rfl, ?_, rfl, rfl, by decide, by decide, rfl⟩
  show pySort (extract _) = _
  rw [show extract ["GLAPI void APIENTRY glClear (GLbitfield mask);"] = ["glClear"] from rfl]
  exact List.mergeSort_singleton _

/-- C8: on an input with zero matching lines, extraction is empty and
both artifacts are still produced with an empty per-declaration part: no
struct fields beyond `major`/`minor`, no `#define` lines, and no
resolution lines in `setup_context`; both artifacts equal the output for
the empty declaration list. -/
theorem C8_empty_input_degenerate (lines : List String)
    (h : ∀ l ∈ lines, reMatch l = none) :
    procsOf lines = [] ∧
    String.join ((procsOf lines).map structFieldLine) = "" ∧
    String.join ((procsOf lines).map defineLine) = "" ∧
    String.join ((procsOf lines).map setupLine) = "" ∧
    gl3w_h (procsOf lines) = gl3w_h [] ∧
    gl3w_c (procsOf lines) = gl3w_c [] := by
  have hext : extract lines = [] := List.filterMap_eq_nil_iff.mpr h
  have hp : procsOf lines = [] := by
    show pySort (extract lines) = _
    rw [hext]
    exact List.mergeSort_nil
  refine ⟨hp, ?_, ?_, ?_, ?_, ?_⟩ <;> rw [hp] <;> try rfl

/-- Witness for C8 at a concrete non-matching input line. -/
theorem C8_empty_input_degenerate_witness :
    (∀ l ∈ ["typedef khronos_float_t GLfloat;"], reMatch l = none) ∧
    (procsOf ["typedef khronos_float_t GLfloat;"] = [] ∧
    String.join ((procsOf ["typedef khronos_float_t GLfloat;"]).map structFieldLine) = "" ∧
    String.join ((procsOf ["typedef khronos_float_t GLfloat;"]).map defineLine) = "" ∧
    String.join ((procsOf ["typedef khronos_float_t GLfloat;"]).map setupLine) = "" ∧
    gl3w_h (procsOf ["typedef khronos_float_t GLfloat;"]) = gl3w_h [] ∧
    gl3w_c (procsOf ["typedef khronos_float_t GLfloat;"]) = gl3w_c []) :=
  ⟨by decide, C8_empty_input_degenerate _ (by decide)⟩

/-- C9: when `glGetIntegerv` resolves to null, `gl3wInit` returns 0 and
leaves `major` and `minor` at the zero written by the `memset`, so every
subsequent `gl3wIsSupported` query on that record returns 0. -/
theorem C9_null_version_query_zeroed (procs : List String) (env : GLEnv) (ctx : GL3WContext)
    (h : env.sym "glGetIntegerv" = 0) :
    (gl3wInit procs env ctx).ret = 0 ∧
    (gl3wInit procs env ctx).ctx.major = 0 ∧
    (gl3wInit procs env ctx).ctx.minor = 0 ∧
    ∀ major minor : Int, gl3wIsSupported (gl3wInit procs env ctx).ctx major minor = 0 := by
  have hc : (if "glGetIntegerv" ∈ procs then env.sym "glGetIntegerv" else 0) = 0 := by
    split <;> simp [h]
  have hc' : (if "glGetIntegerv" ∈ procs then env.sym "glGetIntegerv"
      else zeroContext.ptrs "glGetIntegerv") = 0 := by
    split <;> simp [h, zeroContext]
  have hmaj : (gl3wInit procs env ctx).ctx.major = 0 := by
    rw [gl3wInit_ctx, setup_context_major, if_pos hc']
    rfl
  have hmin : (gl3wInit procs env ctx).ctx.minor = 0 := by
    rw [gl3wInit_ctx, setup_context_minor, if_pos hc']
    rfl
  refine ⟨?_, hmaj, hmin, ?_⟩
  · rw [gl3wInit_ret, if_pos hc]
  · intro major minor
    simp [gl3wIsSupported, hmaj]

/-- Witness for C9 at a concrete environment resolving every symbol to
null. -/
theorem C9_null_version_query_zeroed_witness :
    ((⟨fun _ => 0, 9, 9⟩ : GLEnv).sym "glGetIntegerv" = 0) ∧
    ((gl3wInit ["glGetIntegerv"] ⟨fun _ => 0, 9, 9⟩ zeroContext).ret = 0 ∧
    (gl3wInit ["glGetIntegerv"] ⟨fun _ => 0, 9, 9⟩ zeroContext).ctx.major = 0 ∧
    (gl3wInit ["glGetIntegerv"] ⟨fun _ => 0, 9, 9⟩ zeroContext).ctx.minor = 0 ∧
    ∀ major minor : Int,
      gl3wIsSupported (gl3wInit ["glGetIntegerv"] ⟨fun _ => 0, 9, 9⟩ zeroContext).ctx
        major minor = 0) :=
  ⟨rfl, C9_null_version_query_zeroed _ _ _ rfl⟩

/-- C10: `gl3wInit` performs the library open as its very first step and
never closes the library, also on the failure paths; the close event
occurs only in `gl3wShutdown`, whose first step it is. -/
theorem C10_library_open_not_closed (procs : List String) (env : GLEnv) (ctx : GL3WContext) :
    (gl3wInit procs env ctx).trace.head? = some Step.libOpen ∧
    Step.libClose ∉ (gl3wInit procs env ctx).trace ∧
    (gl3wShutdown ctx).2.head? = some Step.libClose := by
  refine ⟨rfl, ?_, rfl⟩
  rw [gl3wInit_trace]
  rcases setup_context_trace procs env zeroContext with h | h <;> rw [h] <;>
    simp [List.mem_map]

end Gl3wGen
